import Mathlib

/-!
Verification of the lambda reconciliation layer in `janitor/mu.py`.

The Python module builds a deployable zip archive for a policy lambda
function, reconciles the remote function (code and configuration) against
the locally derived desired state, publishes an alias, and reconciles a
CloudWatch Events rule plus its delivery target.  The definitions below are
a shallow embedding of that module: dictionaries become structures, AWS
client calls become values of explicit call inductives or `Except` results,
and Python truthiness (`None` / `False` / values) becomes `Option`.
-/

/-- A botocore `ClientError`, identified by the error code carried in its
response payload (`e.response['Error']['Code']` in the source). -/
structure ClientError where
  code : String
deriving DecidableEq, Repr

/-- Embedding of Python `str.startswith`: `str_startswith s pre` is true when
`pre` is a prefix of `s` (the source writes `function_name.startswith(self.prefix)`). -/
def str_startswith (s pre : String) : Bool :=
  pre.toList.isPrefixOf s.toList

/-- Embedding of the Python substring test `needle in hay` on strings
(the source writes `func.alias in t['Arn']`). -/
def str_in (needle hay : String) : Bool :=
  decide (needle.toList <:+: hay.toList)

/-- Embedding of `resource_exists(op, *args, **kw)` (`mu.py` lines 555-561):
run the lookup; a `ClientError` whose code is `ResourceNotFoundException`
becomes the falsy absence value (Python `False`, here `Option.none`); any
other error is re-raised unmodified. -/
def resource_exists {α : Type} (op : Except ClientError α) : Except ClientError (Option α) :=
  match op with
  | .ok v => .ok (some v)
  | .error e =>
      if e.code = "ResourceNotFoundException" then .ok none else .error e

/-- Embedding of `LambdaManager.get` (`mu.py` lines 547-552): build the lookup
parameters (function name plus optional qualifier) and wrap the
`get_function` call in `resource_exists`. -/
def LambdaManager.get {α : Type} (get_function : String → Option String → Except ClientError α)
    (func_name : String) (qualifier : Option String) : Except ClientError (Option α) :=
  resource_exists (get_function func_name qualifier)

/-- The desired configuration dictionary returned by
`LambdaFunction.get_config` (`mu.py` lines 606-614): exactly the seven keys
FunctionName, MemorySize, Role, Description, Runtime, Handler, Timeout. -/
structure FunctionConfig where
  FunctionName : String
  MemorySize : Nat
  Role : String
  Description : String
  Runtime : String
  Handler : String
  Timeout : Nat
deriving DecidableEq, Repr

/-- The remote function's `Configuration` record as returned by
`get_function`: the seven configuration fields the code compares, plus the
provider-recorded code checksum `CodeSha256`. -/
structure RemoteConfiguration where
  FunctionName : String
  MemorySize : Nat
  Role : String
  Description : String
  Runtime : String
  Handler : String
  Timeout : Nat
  CodeSha256 : String
deriving DecidableEq, Repr

/-- Embedding of `LambdaManager.delta_function` (`mu.py` lines 460-465): for
every key of the desired configuration, compare against the remote
`Configuration` value; true when any differs.  (The Python function returns
`True` or falls through to `None`; both truth values are modelled by `Bool`.) -/
def delta_function (remote : RemoteConfiguration) (conf : FunctionConfig) : Bool :=
  decide (conf.FunctionName ≠ remote.FunctionName) ||
  decide (conf.MemorySize ≠ remote.MemorySize) ||
  decide (conf.Role ≠ remote.Role) ||
  decide (conf.Description ≠ remote.Description) ||
  decide (conf.Runtime ≠ remote.Runtime) ||
  decide (conf.Handler ≠ remote.Handler) ||
  decide (conf.Timeout ≠ remote.Timeout)

/-- The mutating lambda API calls `_create_or_update` may issue. -/
inductive LambdaCall where
  | update_function_code
  | update_function_configuration (conf : FunctionConfig)
  | create_function (conf : FunctionConfig)
deriving DecidableEq, Repr

/-- Embedding of the decision core of `LambdaManager._create_or_update`
(`mu.py` lines 467-501).  `lfunc` is the result of the name lookup
(`none` when the remote function is absent), `archive_checksum` the sealed
archive's checksum, `conf` the desired configuration.  When the function
exists: issue `update_function_code` exactly when the archive checksum
differs from the remote `CodeSha256`, and independently issue
`update_function_configuration` exactly when `delta_function` reports a
configuration difference.  When absent: a single `create_function` call.
(The code upload reference construction and the S3 upload collaborator are
orthogonal to these decisions and not modelled.) -/
def create_or_update (lfunc : Option RemoteConfiguration) (archive_checksum : String)
    (conf : FunctionConfig) : List LambdaCall :=
  match lfunc with
  | some rc =>
      (if archive_checksum ≠ rc.CodeSha256 then [LambdaCall.update_function_code] else []) ++
      (if delta_function rc conf then [LambdaCall.update_function_configuration conf] else [])
  | none => [LambdaCall.create_function conf]

/-- A generic streaming hasher, mirroring the `hasher` argument of the
module-level `checksum(fh, hasher, blocksize)` helper (`mu.py` lines 376-381);
the concrete SHA-256 state is a library collaborator. -/
structure Hasher (σ : Type) where
  update : σ → List Nat → σ
  digest : σ → List Nat

/-- Embedding of `checksum(fh, hasher)` (`mu.py` lines 376-381): fold each
block read from the stream into the hasher state, then take the digest. -/
def checksum {σ : Type} (blocks : List (List Nat)) (h : Hasher σ) (s : σ) : List Nat :=
  h.digest (blocks.foldl h.update s)

/-- A `zipfile.ZipInfo` record: archive member name plus the external
attribute word holding the permission bits in its high 16 bits. -/
structure ZipInfo where
  filename : String
  external_attr : Nat
deriving DecidableEq, Repr

/-- Embedding of `zinfo(fname)` (`mu.py` lines 672-689): build a `ZipInfo`
for a synthetic member and force its permission bits to `0o644`
(world-readable), working around `writestr`'s `0600` default. -/
def zinfo (fname : String) : ZipInfo :=
  { filename := fname, external_attr := 0o644 <<< 16 }

/-- One member of the zip archive: name, external attribute word, contents. -/
structure ArchiveEntry where
  filename : String
  external_attr : Nat
  contents : List Nat
deriving DecidableEq, Repr

/-- A file found by walking the source or library tree: its archive name,
the host filesystem permission bits from `os.stat`, and its bytes. -/
structure HostFile where
  arcname : String
  mode : Nat
  contents : List Nat
deriving DecidableEq, Repr

/-- Embedding of `ZipFile.write(filename, arcname)` as used by
`PythonPackageArchive.create`: CPython builds the member's `ZipInfo` from
`os.stat`, storing the host permission bits in the external attribute's high
16 bits, so a walked file keeps its host mode. -/
def zip_write (f : HostFile) : ArchiveEntry :=
  { filename := f.arcname, external_attr := f.mode <<< 16, contents := f.contents }

/-- State of a `PythonPackageArchive` (`mu.py` lines 270-373): whether the
backing temp file exists (`_temp_archive_file`), whether the archive has been
sealed (`_closed`), and the members written so far. -/
structure PythonPackageArchive where
  created : Bool
  closed : Bool
  entries : List ArchiveEntry
deriving DecidableEq, Repr

/-- The freshly constructed archive: no temp file, open, empty. -/
def PythonPackageArchive.init : PythonPackageArchive :=
  { created := false, closed := false, entries := [] }

/-- The bytes of the archive file, abstracting the zip serialisation as the
concatenation of member contents. -/
def archive_bytes (a : PythonPackageArchive) : List Nat :=
  (a.entries.map ArchiveEntry.contents).flatten

/-- Embedding of `PythonPackageArchive.create` (`mu.py` lines 308-344):
allocate the temp file and write every file produced by walking the source
tree and the virtualenv library tree (after `src_filter` / `lib_filter` /
`skip` filtering, which produce the two lists given here); each is written
with `ZipFile.write`, so host permission bits are preserved. -/
def PythonPackageArchive.create (a : PythonPackageArchive)
    (src_files lib_files : List HostFile) : PythonPackageArchive :=
  { a with created := true,
           entries := a.entries ++ (src_files ++ lib_files).map zip_write }

/-- Embedding of `PythonPackageArchive.add_contents(dest, contents)`
(`mu.py` lines 346-349): `assert not self._closed, "Archive closed"`, then
write the synthetic member described by `dest`.  The failed assertion is the
error case. -/
def PythonPackageArchive.add_contents (a : PythonPackageArchive) (dest : ZipInfo)
    (contents : List Nat) : Except String PythonPackageArchive :=
  if a.closed then .error "Archive closed"
  else .ok { a with entries :=
    a.entries ++ [{ filename := dest.filename, external_attr := dest.external_attr,
                    contents := contents }] }

/-- Embedding of `PythonPackageArchive.close` (`mu.py` lines 351-357):
seal the archive. -/
def PythonPackageArchive.close (a : PythonPackageArchive) : PythonPackageArchive :=
  { a with closed := true }

/-- Embedding of `PythonPackageArchive.remove` (`mu.py` lines 359-362):
drop the reference to the backing temp file. -/
def PythonPackageArchive.remove (a : PythonPackageArchive) : PythonPackageArchive :=
  { a with created := false }

/-- Embedding of the `PythonPackageArchive.size` property (`mu.py` lines
296-300): raise `ValueError` unless the archive is closed, else the byte
size of the backing file. -/
def PythonPackageArchive.size (a : PythonPackageArchive) : Except String Nat :=
  if a.closed then .ok (archive_bytes a).length
  else .error "Archive not closed, size not accurate"

/-- Embedding of `PythonPackageArchive.get_checksum` (`mu.py` lines 364-368):
`assert self._closed, "Archive not closed"`, then the base64 encoding of the
streamed SHA-256 digest of the archive file; the hasher and the base64
encoder are library collaborators passed in. -/
def PythonPackageArchive.get_checksum {σ : Type} (b64encode : List Nat → String)
    (h : Hasher σ) (s : σ) (a : PythonPackageArchive) : Except String String :=
  if a.closed then .ok (b64encode (checksum [archive_bytes a] h s))
  else .error "Archive not closed"

/-- Embedding of `PolicyLambda.get_archive` (`mu.py` lines 659-669): create
the archive from the walked trees, add the serialised policy config and the
generated handler file as synthetic members through `zinfo`, then close. -/
def PolicyLambda.get_archive (src_files lib_files : List HostFile)
    (config_bytes handler_bytes : List Nat) : Except String PythonPackageArchive := do
  let a := PythonPackageArchive.init.create src_files lib_files
  let a ← a.add_contents (zinfo "config.json") config_bytes
  let a ← a.add_contents (zinfo "maid_policy.py") handler_bytes
  .ok a.close

/-- A CloudWatch Events rule as a partial record: the `describe_rule`
response and the `put_rule` parameter dictionary both read their fields with
`dict.get`, so every field is optional (`None` when the key is missing). -/
structure CWERule where
  Name : Option String
  State : Option String
  EventPattern : Option String
  ScheduleExpression : Option String
deriving DecidableEq, Repr

/-- Embedding of `CloudWatchEventSource.delta(src, tgt)` (`mu.py` lines
741-749): true when any of the three keys State, EventPattern,
ScheduleExpression differs between the two rules (Name is already implied). -/
def CloudWatchEventSource.delta (src tgt : CWERule) : Bool :=
  decide (src.State ≠ tgt.State) ||
  decide (src.EventPattern ≠ tgt.EventPattern) ||
  decide (src.ScheduleExpression ≠ tgt.ScheduleExpression)

/-- Embedding of `CloudWatchEventSource._make_notification_id` (`mu.py`
lines 731-734): prepend the rule name prefix unless the function name
already starts with it. -/
def CloudWatchEventSource.make_notification_id (pfx function_name : String) : String :=
  if str_startswith function_name pfx then function_name
  else pfx ++ function_name

/-- A CloudWatch Events rule target (`Id` plus `Arn`). -/
structure Target where
  Id : String
  Arn : String
deriving DecidableEq, Repr

/-- The remote CloudWatch Events state the reconciler reads: the
`describe_rule` lookup by rule name (absence as `none`, matching the
`resource_exists` wrapper on `CloudWatchEventSource.get`) and the
`list_targets_by_rule` listing. -/
structure CWEEnv where
  describe_rule : String → Option CWERule
  list_targets_by_rule : String → List Target

/-- Embedding of `CloudWatchEventSource.get(rule_name)` (`mu.py` lines
736-739): describe the rule under the derived notification id, with
not-found mapped to absence by `resource_exists`. -/
def CloudWatchEventSource.get (env : CWEEnv) (pfx rule_name : String) : Option CWERule :=
  env.describe_rule (CloudWatchEventSource.make_notification_id pfx rule_name)

/-- The mutating CloudWatch Events API calls this module issues. -/
inductive CWECall where
  | put_rule (params : CWERule)
  | put_targets (rule target_id target_arn : String)
  | delete_rule (name : String)
deriving DecidableEq, Repr

/-- The `params` dictionary built at the top of `CloudWatchEventSource.add`
(`mu.py` lines 787-797): `Name` is the function name verbatim, `State` is
always ENABLED, and `EventPattern` / `ScheduleExpression` are present only
when rendered / declared. -/
def CloudWatchEventSource.rule_params (func_name : String)
    (pattern schedule : Option String) : CWERule :=
  { Name := some func_name, State := some "ENABLED",
    EventPattern := pattern, ScheduleExpression := schedule }

/-- Embedding of `CloudWatchEventSource.add(func)` (`mu.py` lines 786-823)
after the event pattern has been rendered: fetch the existing rule under the
derived name; `put_rule` when it exists with a delta, or when it is absent;
then list the targets under the raw function name, and if none of them has
the function alias as a substring of its Arn, `put_targets` one fresh target
and return `True` — otherwise return early with Python `None`.  The result
is the list of calls issued plus the returned value (`some true` for
`return True`, `none` for the bare `return` / fall-through `None`). -/
def CloudWatchEventSource.add (env : CWEEnv) (pfx func_name func_alias fresh_id : String)
    (pattern schedule : Option String) : List CWECall × Option Bool :=
  let params := CloudWatchEventSource.rule_params func_name pattern schedule
  let rule := CloudWatchEventSource.get env pfx func_name
  let rule_calls :=
    match rule with
    | some r => if CloudWatchEventSource.delta r params then [CWECall.put_rule params] else []
    | none => [CWECall.put_rule params]
  let found := (env.list_targets_by_rule func_name).any (fun t => str_in func_alias t.Arn)
  if found then (rule_calls, none)
  else (rule_calls ++ [CWECall.put_targets func_name fresh_id func_alias], some true)

/-- Embedding of `CloudWatchEventSource.pause(func)` (`mu.py` lines
828-832): issue `disable_rule` inside `try: ... except ClientError: pass`,
so whatever the call's outcome, the method returns normally. -/
def CloudWatchEventSource.pause (disable_rule : Except ClientError Unit) :
    Except ClientError Unit :=
  match disable_rule with
  | .ok _ => .ok ()
  | .error _ => .ok ()

/-- Embedding of `CloudWatchEventSource.resume(func)` (`mu.py` lines
834-838): issue `enable_rule` inside `try: ... except ClientError: pass`. -/
def CloudWatchEventSource.resume (enable_rule : Except ClientError Unit) :
    Except ClientError Unit :=
  match enable_rule with
  | .ok _ => .ok ()
  | .error _ => .ok ()

/-- Embedding of `CloudWatchEventSource.remove(func)` (`mu.py` lines
840-844): delete the rule only when the lookup finds it. -/
def CloudWatchEventSource.remove (env : CWEEnv) (pfx func_name : String) : List CWECall :=
  match CloudWatchEventSource.get env pfx func_name with
  | some _ => [CWECall.delete_rule func_name]
  | none => []

/-- The provider's `delete_function` call: AWS Lambda raises a
`ResourceNotFoundException` client error when the named function does not
exist (provider semantics of the external client collaborator). -/
def delete_function (function_exists : Bool) : Except ClientError Unit :=
  if function_exists then .ok () else .error { code := "ResourceNotFoundException" }

/-- Embedding of `LambdaManager.remove(func)` (`mu.py` lines 437-441): run
each event source's `remove` (which tolerates a missing rule), then call
`delete_function` with no exception handling, so its errors propagate. -/
def LambdaManager.remove (env : CWEEnv) (pfx func_name : String) (function_exists : Bool) :
    Except ClientError (List CWECall) :=
  let event_calls := CloudWatchEventSource.remove env pfx func_name
  match delete_function function_exists with
  | .ok _ => .ok event_calls
  | .error e => .error e

/-- Embedding of `CloudWatchEventSource.ASG_EVENT_MAPPING` (`mu.py` lines
719-723): the fixed short-alias table for autoscaling lifecycle events. -/
def ASG_EVENT_MAPPING : List (String × String) :=
  [("launch-success", "EC2 Instance Launch Successful"),
   ("launch-failure", "EC2 Instance Launch Unsuccessful"),
   ("terminate-success", "EC2 Instance Terminate Successful"),
   ("terminate-failure", "EC2 Instance Terminate Unsuccessful")]

/-- Embedding of `self.ASG_EVENT_MAPPING.get(e, e)`: translate a declared
event name through the table, defaulting to the name itself. -/
def asg_event_lookup (e : String) : String :=
  match ASG_EVENT_MAPPING.lookup e with
  | some v => v
  | none => e

/-- The `mode` dictionary of a policy as read by `CloudWatchEventSource`:
its `type`, and the `sources`, `events` (default `[]`) and `schedule`
(optional) fields read with `dict.get`. -/
structure ModeData where
  type : String
  sources : List String
  events : List String
  schedule : Option String
deriving DecidableEq, Repr

/-- The event pattern `payload` dictionary built by
`render_event_pattern`, with its possible top-level keys `source` and
`detail-type` and the possible members of its `detail` sub-dictionary. -/
structure EventPayload where
  source : Option (List String)
  detail_type : Option (List String)
  detail_eventSource : Option (List String)
  detail_eventName : Option (List String)
  detail_state : Option (List String)
deriving DecidableEq, Repr

/-- Embedding of `CloudWatchEventSource.render_event_pattern` (`mu.py`
lines 757-784): build the payload per event source type; `periodic` leaves
the payload empty, which renders as `None`; an unknown type raises
`ValueError`.  (The final `json.dumps` serialisation is a library
collaborator; the structured payload is returned instead.) -/
def CloudWatchEventSource.render_event_pattern (data : ModeData) :
    Except String (Option EventPayload) :=
  if data.type = "cloudtrail" then
    .ok (some { source := none,
                detail_type := some ["AWS API Call via CloudTrail"],
                detail_eventSource := some data.sources,
                detail_eventName := some data.events,
                detail_state := none })
  else if data.type = "ec2-instance-state" then
    .ok (some { source := some ["aws.ec2"],
                detail_type := some ["EC2 Instance State-change Notifications"],
                detail_eventSource := none,
                detail_eventName := none,
                detail_state := some data.events })
  else if data.type = "asg-instance-state" then
    .ok (some { source := some ["aws.autoscaling"],
                detail_type := some (data.events.map asg_event_lookup),
                detail_eventSource := none,
                detail_eventName := none,
                detail_state := none })
  else if data.type = "periodic" then
    .ok none
  else
    .error ("Unknown lambda event source type: " ++ data.type)

/-- The full `CloudWatchEventSource.add` pipeline: render the event pattern
from the mode data (serialised by the `dumps` collaborator), read the
schedule, and run the reconciliation; an unknown mode type surfaces the
`ValueError` before any call is issued. -/
def CloudWatchEventSource.add_from_data (dumps : EventPayload → String) (env : CWEEnv)
    (pfx func_name func_alias fresh_id : String) (data : ModeData) :
    Except String (List CWECall × Option Bool) := do
  let pat ← CloudWatchEventSource.render_event_pattern data
  .ok (CloudWatchEventSource.add env pfx func_name func_alias fresh_id
        (pat.map dumps) data.schedule)

/-- C1: when the remote function exists, `_create_or_update` issues the
code-update call iff the sealed archive checksum differs from the remote
`CodeSha256`, issues the configuration-update call iff at least one of the
seven derived configuration fields differs from the corresponding remote
field, the two decisions are independent in combination, and when neither
fires no mutating call is issued. -/
theorem create_or_update_two_axis_diff (rc : RemoteConfiguration) (ck : String)
    (conf : FunctionConfig) :
    (LambdaCall.update_function_code ∈ create_or_update (some rc) ck conf ↔
      ck ≠ rc.CodeSha256)
  ∧ (LambdaCall.update_function_configuration conf ∈ create_or_update (some rc) ck conf ↔
      (conf.FunctionName ≠ rc.FunctionName ∨ conf.MemorySize ≠ rc.MemorySize ∨
       conf.Role ≠ rc.Role ∨ conf.Description ≠ rc.Description ∨
       conf.Runtime ≠ rc.Runtime ∨ conf.Handler ≠ rc.Handler ∨
       conf.Timeout ≠ rc.Timeout))
  ∧ (ck = rc.CodeSha256 → delta_function rc conf = false →
      create_or_update (some rc) ck conf = []) := by
  refine ⟨?_, ?_, ?_⟩
  · by_cases hc : ck = rc.CodeSha256 <;>
      by_cases hd : delta_function rc conf <;>
        simp [create_or_update, hc, hd]
  · have hdelta : delta_function rc conf = true ↔
        (conf.FunctionName ≠ rc.FunctionName ∨ conf.MemorySize ≠ rc.MemorySize ∨
         conf.Role ≠ rc.Role ∨ conf.Description ≠ rc.Description ∨
         conf.Runtime ≠ rc.Runtime ∨ conf.Handler ≠ rc.Handler ∨
         conf.Timeout ≠ rc.Timeout) := by
      simp [delta_function, or_assoc]
    rw [← hdelta]
    by_cases hc : ck = rc.CodeSha256 <;>
      by_cases hd : delta_function rc conf <;>
        simp [create_or_update, hc, hd]
  · intro hc hd
    simp [create_or_update, hc, hd]

/-- Witness for C1: with the checksum equal and every configuration field
equal, no mutating call is issued. -/
theorem create_or_update_two_axis_diff_witness :
    create_or_update
      (some ⟨"maid-p", 512, "arn:role", "d", "python2.7", "maid_policy.run", 60, "CK"⟩)
      "CK" ⟨"maid-p", 512, "arn:role", "d", "python2.7", "maid_policy.run", 60⟩ = [] :=
  (create_or_update_two_axis_diff _ _ _).2.2 rfl (by decide)

/-- C3: a lookup wrapped in `resource_exists` turns a not-found client error
into the falsy absence value, re-raises any other client error unmodified
(never treating it as absence), and returns a found resource as-is. -/
theorem resource_exists_not_found_absence (α : Type) :
    (resource_exists (Except.error ⟨"ResourceNotFoundException"⟩ : Except ClientError α) =
      .ok none)
  ∧ (∀ e : ClientError, e.code ≠ "ResourceNotFoundException" →
      resource_exists (Except.error e : Except ClientError α) = .error e
    ∧ resource_exists (Except.error e : Except ClientError α) ≠ .ok none)
  ∧ (∀ v : α, resource_exists (Except.ok v) = .ok (some v)) := by
  refine ⟨by simp [resource_exists], fun e he => ?_, fun v => by simp [resource_exists]⟩
  simp [resource_exists, he]

/-- Witness for C3: a throttling error is re-raised unmodified by
`resource_exists` rather than treated as absence. -/
theorem resource_exists_not_found_absence_witness :
    resource_exists (Except.error ⟨"Throttling"⟩ : Except ClientError Nat) =
      .error ⟨"Throttling"⟩ :=
  ((resource_exists_not_found_absence Nat).2.1 ⟨"Throttling"⟩ (by decide)).1

/-- C5: the archive lifecycle is strict — adding a synthetic member after
the archive is sealed fails with the `Archive closed` assertion, querying
the checksum or the byte size before sealing fails with the corresponding
assertion or `ValueError`, and once sealed both queries are defined. -/
theorem archive_lifecycle_guards {σ : Type} (a : PythonPackageArchive) (d : ZipInfo)
    (c : List Nat) (b64 : List Nat → String) (h : Hasher σ) (s : σ) :
    (a.closed = true → a.add_contents d c = .error "Archive closed")
  ∧ (a.closed = false →
      PythonPackageArchive.get_checksum b64 h s a = .error "Archive not closed"
    ∧ a.size = .error "Archive not closed, size not accurate")
  ∧ (a.closed = true →
      PythonPackageArchive.get_checksum b64 h s a =
        .ok (b64 (checksum [archive_bytes a] h s))
    ∧ a.size = .ok (archive_bytes a).length) := by
  refine ⟨fun hc => ?_, fun hc => ⟨?_, ?_⟩, fun hc => ⟨?_, ?_⟩⟩ <;>
    simp [PythonPackageArchive.add_contents, PythonPackageArchive.get_checksum,
          PythonPackageArchive.size, hc]

/-- Witness for C5: writing to a sealed archive errors, and querying the
size of a never-sealed archive errors. -/
theorem archive_lifecycle_guards_witness :
    PythonPackageArchive.init.close.add_contents (zinfo "config.json") [] =
      .error "Archive closed"
  ∧ PythonPackageArchive.size PythonPackageArchive.init =
      .error "Archive not closed, size not accurate" := by
  constructor
  · exact (archive_lifecycle_guards PythonPackageArchive.init.close (zinfo "config.json")
      [] (fun _ => "") ⟨fun s _ => s, fun _ => []⟩ ()).1 rfl
  · exact ((archive_lifecycle_guards PythonPackageArchive.init (zinfo "config.json")
      [] (fun _ => "") ⟨fun s _ => s, fun _ => []⟩ ()).2.1 rfl).2

/-- C2 counterexample: with no remote rule and no remote function,
`LambdaManager.remove` raises the provider's not-found error instead of
completing without error. -/
theorem remove_missing_function_error :
    LambdaManager.remove ⟨fun _ => none, fun _ => []⟩ "maid-" "maid-p" false =
      .error ⟨"ResourceNotFoundException"⟩ := by
  rfl

/-- C2 amended: `LambdaManager.remove` completes without error exactly when
the remote function exists; the event-source unbinding step does tolerate a
missing rule, but the final unguarded `delete_function` call propagates the
provider's not-found error when the function is absent. -/
theorem remove_ok_iff_function_exists (env : CWEEnv) (pfx fn : String) (fe : Bool) :
    (LambdaManager.remove env pfx fn fe = .ok (CloudWatchEventSource.remove env pfx fn) ↔
      fe = true)
  ∧ (fe = false →
      LambdaManager.remove env pfx fn fe = .error ⟨"ResourceNotFoundException"⟩)
  ∧ (env.describe_rule (CloudWatchEventSource.make_notification_id pfx fn) = none →
      CloudWatchEventSource.remove env pfx fn = []) := by
  refine ⟨?_, fun hfe => ?_, fun hr => ?_⟩
  · cases fe <;> simp [LambdaManager.remove, delete_function]
  · subst hfe; simp [LambdaManager.remove, delete_function]
  · simp [CloudWatchEventSource.remove, CloudWatchEventSource.get, hr]

/-- Witness for the amended C2: a missing function propagates the not-found
error, while the unbinding of a missing rule issues no call. -/
theorem remove_ok_iff_function_exists_witness :
    LambdaManager.remove ⟨fun _ => none, fun _ => []⟩ "maid-" "maid-q" false =
      .error ⟨"ResourceNotFoundException"⟩
  ∧ CloudWatchEventSource.remove ⟨fun _ => none, fun _ => []⟩ "maid-" "maid-q" = [] :=
  ⟨(remove_ok_iff_function_exists ⟨fun _ => none, fun _ => []⟩ "maid-" "maid-q" false).2.1
      rfl,
   (remove_ok_iff_function_exists ⟨fun _ => none, fun _ => []⟩ "maid-" "maid-q" false).2.2
      rfl⟩

/-- C4: `CloudWatchEventSource.add` fetches the existing rule under the
derived rule name and issues `put_rule` when the rule is absent or when the
delta over exactly the three compared fields reports a difference; when the
rule is present and no compared field differs, no rule-mutating call is
issued; and the delta ignores the rule name entirely. -/
theorem cwe_add_rule_delta (env : CWEEnv) (pfx fn fa fid : String) (pat sch : Option String) :
    (CloudWatchEventSource.get env pfx fn = none →
      CWECall.put_rule (CloudWatchEventSource.rule_params fn pat sch) ∈
        (CloudWatchEventSource.add env pfx fn fa fid pat sch).1)
  ∧ (∀ r, CloudWatchEventSource.get env pfx fn = some r →
      CloudWatchEventSource.delta r (CloudWatchEventSource.rule_params fn pat sch) = true →
      CWECall.put_rule (CloudWatchEventSource.rule_params fn pat sch) ∈
        (CloudWatchEventSource.add env pfx fn fa fid pat sch).1)
  ∧ (∀ r, CloudWatchEventSource.get env pfx fn = some r →
      CloudWatchEventSource.delta r (CloudWatchEventSource.rule_params fn pat sch) = false →
      ∀ q, CWECall.put_rule q ∉ (CloudWatchEventSource.add env pfx fn fa fid pat sch).1)
  ∧ (∀ src tgt : CWERule, ∀ n₁ n₂ : Option String,
      CloudWatchEventSource.delta { src with Name := n₁ } { tgt with Name := n₂ } =
        CloudWatchEventSource.delta src tgt) := by
  refine ⟨fun hg => ?_, fun r hg hd => ?_, fun r hg hd q => ?_,
    fun src tgt n₁ n₂ => ?_⟩
  · by_cases hf : (env.list_targets_by_rule fn).any (fun t => str_in fa t.Arn) <;>
      simp [CloudWatchEventSource.add, hg, hf]
  · by_cases hf : (env.list_targets_by_rule fn).any (fun t => str_in fa t.Arn) <;>
      simp [CloudWatchEventSource.add, hg, hd, hf]
  · by_cases hf : (env.list_targets_by_rule fn).any (fun t => str_in fa t.Arn) <;>
      simp [CloudWatchEventSource.add, hg, hd, hf]
  · simp [CloudWatchEventSource.delta]

/-- Witness for C4: an existing rule whose State differs from the desired
ENABLED state triggers the upsert call. -/
theorem cwe_add_rule_delta_witness :
    CWECall.put_rule (CloudWatchEventSource.rule_params "maid-p" none (some "rate(1 day)")) ∈
      (CloudWatchEventSource.add
        ⟨fun n => if n = "maid-p" then
            some ⟨some "maid-p", some "DISABLED", none, some "rate(1 day)"⟩ else none,
          fun _ => []⟩
        "maid-" "maid-p" "arn:alias" "id-0" none (some "rate(1 day)")).1 :=
  (cwe_add_rule_delta _ "maid-" "maid-p" "arn:alias" "id-0" none (some "rate(1 day)")).2.1
    ⟨some "maid-p", some "DISABLED", none, some "rate(1 day)"⟩ (by decide) (by decide)

/-- C6 counterexample: a file gathered by walking the source tree whose host
permission bits are 0600 is stored in the built archive with those host
bits, not forced to the world-readable 0644. -/
theorem walked_entry_mode_counterexample :
    (PythonPackageArchive.init.create [⟨"janitor/mu.py", 0o600, [1]⟩] []).entries =
      [⟨"janitor/mu.py", 0o600 <<< 16, [1]⟩]
  ∧ 0o600 <<< 16 ≠ 0o644 <<< 16 := by
  exact ⟨rfl, by decide⟩

/-- C6 amended: synthetic in-memory members added through `zinfo` are forced
to the world-readable 0644 permission bits, while members added by walking
the source and library trees keep the host file's permission bits; in the
built policy archive the two synthetic members carry 0644 and the walked
members carry their host modes. -/
theorem entry_permission_bits (fname : String) (f : HostFile) (a : PythonPackageArchive)
    (src_files lib_files : List HostFile) (cb hb : List Nat) :
    (zinfo fname).external_attr = 0o644 <<< 16
  ∧ (zip_write f).external_attr = f.mode <<< 16
  ∧ (a.create src_files lib_files).entries =
      a.entries ++ (src_files ++ lib_files).map zip_write
  ∧ PolicyLambda.get_archive src_files lib_files cb hb =
      .ok ⟨true, true,
        ((src_files ++ lib_files).map zip_write ++
          [⟨"config.json", 0o644 <<< 16, cb⟩]) ++
          [⟨"maid_policy.py", 0o644 <<< 16, hb⟩]⟩ := by
  exact ⟨rfl, rfl, rfl, rfl⟩

/-- C7 counterexample: a remote failure during pause or resume whose code is
not the not-found code is swallowed (the call returns normally) instead of
being propagated to the caller. -/
theorem pause_resume_swallow_counterexample :
    CloudWatchEventSource.pause (.error ⟨"AccessDeniedException"⟩) = .ok ()
  ∧ CloudWatchEventSource.resume (.error ⟨"AccessDeniedException"⟩) = .ok ()
  ∧ ("AccessDeniedException" : String) ≠ "ResourceNotFoundException" := by
  exact ⟨rfl, rfl, by decide⟩

/-- C7 amended: pause and resume tolerate a missing rule, but they swallow
every client error alike — whatever the outcome of the underlying
disable/enable call, both complete without error. -/
theorem pause_resume_always_ok (r₁ r₂ : Except ClientError Unit) :
    CloudWatchEventSource.pause r₁ = .ok ()
  ∧ CloudWatchEventSource.resume r₂ = .ok () := by
  cases r₁ <;> cases r₂ <;> exact ⟨rfl, rfl⟩

/-- C8 counterexample: an existing rule whose State differs is updated (a
`put_rule` call is issued, so remote state changes), yet because a target
already references the alias, `add` returns the falsy Python `None`, not a
boolean reflecting that a change was made. -/
theorem cwe_add_mutation_falsy_counterexample :
    CloudWatchEventSource.add
      ⟨fun n => if n = "maid-p" then
          some ⟨some "maid-p", some "DISABLED", none, some "rate(5 minutes)"⟩ else none,
        fun _ => [⟨"t0", "arn:aws:lambda:maid-p:current"⟩]⟩
      "maid-" "maid-p" "maid-p:current" "id-1" none (some "rate(5 minutes)") =
      ([CWECall.put_rule
          (CloudWatchEventSource.rule_params "maid-p" none (some "rate(5 minutes)"))],
        none) := by
  rfl

/-- C8 amended: the value returned by `add` reflects only the target axis —
it is `True` exactly when a target was added (no existing target Arn
contains the alias), and the falsy `None` otherwise, regardless of whether
the rule itself was created or updated. -/
theorem cwe_add_true_iff_target_added (env : CWEEnv) (pfx fn fa fid : String)
    (pat sch : Option String) :
    ((CloudWatchEventSource.add env pfx fn fa fid pat sch).2 = some true ↔
      CWECall.put_targets fn fid fa ∈ (CloudWatchEventSource.add env pfx fn fa fid pat sch).1)
  ∧ ((CloudWatchEventSource.add env pfx fn fa fid pat sch).2 = some true ↔
      (env.list_targets_by_rule fn).any (fun t => str_in fa t.Arn) = false) := by
  obtain r | hr : (∃ r, CloudWatchEventSource.get env pfx fn = some r) ∨
      CloudWatchEventSource.get env pfx fn = none := by
    cases CloudWatchEventSource.get env pfx fn with
    | some r => exact Or.inl ⟨r, rfl⟩
    | none => exact Or.inr rfl
  · obtain ⟨r, hr⟩ := r
    by_cases hf : (env.list_targets_by_rule fn).any (fun t => str_in fa t.Arn) <;>
      by_cases hd : CloudWatchEventSource.delta r
          (CloudWatchEventSource.rule_params fn pat sch) <;>
        simp [CloudWatchEventSource.add, hr, hf, hd]
  · by_cases hf : (env.list_targets_by_rule fn).any (fun t => str_in fa t.Arn) <;>
      simp [CloudWatchEventSource.add, hr, hf]

/-- C9 counterexample: for an owner name that already starts with the rule
prefix, the derived rule identity is not the prefix concatenated with the
owner name. -/
theorem make_notification_id_counterexample :
    CloudWatchEventSource.make_notification_id "maid-" "maid-x" ≠ "maid-" ++ "maid-x" := by
  decide

/-- C9 amended: the describe lookup derives the rule name by prepending the
prefix only when the owner name does not already start with it — which is
what makes the derivation idempotent — while the create/update parameters
(and the target-listing and delete calls) use the owner name verbatim. -/
theorem make_notification_id_behavior (pfx n : String) (pat sch : Option String) :
    (str_startswith n pfx = false →
      CloudWatchEventSource.make_notification_id pfx n = pfx ++ n)
  ∧ (str_startswith n pfx = true →
      CloudWatchEventSource.make_notification_id pfx n = n)
  ∧ CloudWatchEventSource.make_notification_id pfx
      (CloudWatchEventSource.make_notification_id pfx n) =
      CloudWatchEventSource.make_notification_id pfx n
  ∧ (CloudWatchEventSource.rule_params n pat sch).Name = some n := by
  have happ : ∀ l m : List Char, l.isPrefixOf (l ++ m) = true := by
    intro l m
    simp [List.isPrefixOf_iff_prefix]
  refine ⟨fun hs => ?_, fun hs => ?_, ?_, rfl⟩
  · simp [CloudWatchEventSource.make_notification_id, hs]
  · simp [CloudWatchEventSource.make_notification_id, hs]
  · by_cases hs : str_startswith n pfx
    · simp [CloudWatchEventSource.make_notification_id, hs]
    · have h2 : str_startswith (pfx ++ n) pfx = true := by
        have hdata : (pfx ++ n).toList = pfx.toList ++ n.toList := rfl
        simp [str_startswith, hdata, happ]
      simp [CloudWatchEventSource.make_notification_id, hs, h2]

/-- Witness for the amended C9: an unprefixed owner name gets the prefix
prepended; an already-prefixed owner name is returned unchanged. -/
theorem make_notification_id_behavior_witness :
    CloudWatchEventSource.make_notification_id "maid-" "p" = "maid-" ++ "p"
  ∧ CloudWatchEventSource.make_notification_id "maid-" "maid-q" = "maid-q" :=
  ⟨(make_notification_id_behavior "maid-" "p" none none).1 (by decide),
   (make_notification_id_behavior "maid-" "maid-q" none none).2.1 (by decide)⟩

/-- C10: for the autoscaling-instance-state event source, the rendered
pattern's detail-type list is the declared event list mapped through the
short-alias table: every name that is a key of the table is translated to
its canonical provider name, every other name passes through unchanged, and
no declared name is dropped or rejected. -/
theorem asg_event_translation (data : ModeData) (h : data.type = "asg-instance-state") :
    CloudWatchEventSource.render_event_pattern data =
      .ok (some { source := some ["aws.autoscaling"],
                  detail_type := some (data.events.map asg_event_lookup),
                  detail_eventSource := none, detail_eventName := none,
                  detail_state := none })
  ∧ (∀ e v, (e, v) ∈ ASG_EVENT_MAPPING → asg_event_lookup e = v)
  ∧ (∀ e, e ∉ ASG_EVENT_MAPPING.map Prod.fst → asg_event_lookup e = e)
  ∧ (data.events.map asg_event_lookup).length = data.events.length := by
  refine ⟨?_, fun e v hm => ?_, fun e he => ?_, by simp⟩
  · simp [CloudWatchEventSource.render_event_pattern, h]
  · fin_cases hm <;> rfl
  · simp [ASG_EVENT_MAPPING] at he
    obtain ⟨h1, h2, h3, h4⟩ := he
    have b1 : (e == "launch-success") = false := beq_eq_false_iff_ne.mpr h1
    have b2 : (e == "launch-failure") = false := beq_eq_false_iff_ne.mpr h2
    have b3 : (e == "terminate-success") = false := beq_eq_false_iff_ne.mpr h3
    have b4 : (e == "terminate-failure") = false := beq_eq_false_iff_ne.mpr h4
    simp [asg_event_lookup, ASG_EVENT_MAPPING, List.lookup, b1, b2, b3, b4]

/-- Witness for C10: a declared event list mixing a table key and a
pass-through name renders with the key translated and the other name kept. -/
theorem asg_event_translation_witness :
    CloudWatchEventSource.render_event_pattern
      ⟨"asg-instance-state", [], ["launch-success", "custom-event"], none⟩ =
      .ok (some ⟨some ["aws.autoscaling"],
                 some ["EC2 Instance Launch Successful", "custom-event"],
                 none, none, none⟩) :=
  (asg_event_translation ⟨"asg-instance-state", [], ["launch-success", "custom-event"],
      none⟩ rfl).1
